import Mathlib

/-!
# doord: a shallow embedding of `src/doord.c`

`doord.c` is a small TCP daemon: `main` calls `startServer`, opens the value
file of a gpio pin and enters `doForever`, which accepts one connection at a
time, reads one message and, when the first byte is `'t'`, switches the pin on
for one second.

The program is all input/output, so the embedding is a *trace* semantics:

* every library or system call with an outside effect is an `Event`;
* everything the outside world answers (return values of `socket`, `bind`,
  `listen`, `fopen`, `accept`, `read`, `putc`, `fflush`) is an explicit input
  (`Startup`, one `Connection` per pass of the loop);
* the local array `buffer` of `doForever` is threaded through the passes as a
  `List Byte`, because it is declared outside the `while` loop and so survives
  from one connection to the next.

`doForever` never returns; the model takes the answers for the first `n`
passes of the loop and yields the events of these `n` passes, so a list of
connections stands for a finite beginning of one endless run.

Two places of the C text have undefined behaviour.  They are modelled as
follows.

* `putc` on a null stream (after a failed `fopen`): the run stops with the
  event `Event.nullStream`; nothing after it is modelled.
* `printf("%s", buffer)` when the buffer holds no zero byte: the event records
  the bytes of the buffer and `terminated = false`; the run goes on, as it does
  on a machine where the stack behind the array is readable.
-/

namespace DoorD

/-- One byte of the message buffer. -/
abbrev Byte := Fin 256

/-- The constant `port` of the source. -/
def port : Int := 8765

/-- The constant `gpio` of the source. -/
def gpio : Int := 7

/-- The value of `sizeof(buffer)` for `char buffer[1024]`. -/
def bufferSize : Nat := 1024

/-- The byte of the character `'t'` (0x74). -/
def letterT : Byte := 116

/-- The path built by `sprintf(gpioDir, "/sys/class/gpio/gpio%d/value", gpio)`. -/
def gpioDir : String := "/sys/class/gpio/gpio" ++ toString gpio ++ "/value"

/-- The calls of the program that act on the outside world. -/
inductive Event where
  /-- A `printf` of a fixed text. -/
  | printf (text : String)
  /-- A `printf` with one `%d` argument. -/
  | printfInt (format : String) (value : Int)
  /-- A `printf` with one `%s` argument taken from the message buffer:
  the bytes before the first zero byte of the buffer, and whether the buffer
  holds a zero byte at all. -/
  | printfStr (format : String) (text : List Byte) (terminated : Bool)
  /-- A `printf` with one `%s` argument that is a path. -/
  | printfPath (format : String) (path : String)
  /-- The call `socket(PF_INET, SOCK_STREAM, 0)`. -/
  | socket
  /-- The call `bind(fd, any address : port)`, the port being the 16-bit value
  `htons` keeps of `serverPort`. -/
  | bind (fd : Int) (serverPort : Int)
  /-- The call `listen(fd, backlog)`. -/
  | listen (fd : Int) (backlog : Int)
  /-- The call `fopen(path, mode)`. -/
  | fopen (path : String) (mode : String)
  /-- The call `accept(fd, NULL, NULL)`. -/
  | accept (fd : Int)
  /-- The call `read(fd, buffer, count)`. -/
  | read (fd : Int) (count : Nat)
  /-- The call `putc(c, stream)` on an open stream. -/
  | putc (c : Char) (stream : Nat)
  /-- The call `fflush(stream)` on an open stream. -/
  | fflush (stream : Nat)
  /-- The call `sleep(seconds)`. -/
  | sleep (seconds : Nat)
  /-- The call `close(fd)`. -/
  | close (fd : Int)
  /-- The call `putc(c, NULL)`: undefined behaviour, the run ends here. -/
  | nullStream
  deriving DecidableEq

/-- What the system answers while `main` starts up. -/
structure Startup where
  /-- Return value of `socket`: a descriptor, or -1. -/
  socketResult : Int
  /-- Return value of `bind`: 0, or -1. -/
  bindResult : Int
  /-- Return value of `listen`: 0, or -1. -/
  listenResult : Int
  /-- Return value of `fopen`: an open stream, or `none` for `NULL`. -/
  fopenResult : Option Nat
  deriving DecidableEq

/-- What the system answers during one pass of the loop of `doForever`. -/
structure Connection where
  /-- Return value of `accept`: the client descriptor, or a negative value. -/
  acceptResult : Int
  /-- Outcome of `read`: `none` when it fails (returns -1 and leaves the buffer
  alone), `some data` when it delivers `data` (cut to the size asked for). -/
  readResult : Option (List Byte)
  /-- Return value of `putc('1', gpioFile)`: the character, or `EOF` (-1). -/
  putcOn : Int
  /-- Return value of the first `fflush(gpioFile)`: 0, or `EOF` (-1). -/
  fflushOn : Int
  /-- Return value of `putc('0', gpioFile)`. -/
  putcOff : Int
  /-- Return value of the second `fflush(gpioFile)`. -/
  fflushOff : Int
  deriving DecidableEq

/-- The effect of `memset(buffer, value, count)` on the array. -/
def memset (buffer : List Byte) (value : Byte) (count : Nat) : List Byte :=
  List.replicate count value ++ buffer.drop count

/-- The bytes one `read(fd, buffer, count)` stores: at most `count` of them. -/
def delivered (count : Nat) : Option (List Byte) → List Byte
  | none => []
  | some data => data.take count

/-- The effect of `read(fd, buffer, count)` on the array: the delivered bytes
overwrite the front of the buffer, the rest keeps its contents. -/
def readInto (buffer : List Byte) (count : Nat) (result : Option (List Byte)) : List Byte :=
  delivered count result ++ buffer.drop (delivered count result).length

/-- The bytes `printf("%s", buffer)` prints: those before the first zero byte. -/
def cString (buffer : List Byte) : List Byte :=
  buffer.takeWhile (fun b => b != 0)

/-- Whether the array holds a zero byte, so that `%s` stops inside it. -/
def hasTerminator (buffer : List Byte) : Bool :=
  buffer.any (fun b => b == 0)

/-- The outcome of one pass of the loop. -/
structure Pass where
  /-- The calls issued, in order. -/
  events : List Event
  /-- The contents of `buffer` at the end of the pass. -/
  buffer : List Byte
  /-- Whether the pass ran into `putc` on a null stream. -/
  faulted : Bool
  deriving DecidableEq

/-- The contents of `buffer` when `buffer[0] == 't'` is tested: after the
`memset` and the `read` of the pass. -/
def bufferAfterRead (buffer : List Byte) (c : Connection) : List Byte :=
  readInto (memset buffer 0 bufferSize) bufferSize c.readResult

/-- The five calls between `if (buffer[0] == 't')` and its closing brace. -/
def pulse (stream : Nat) : List Event :=
  [Event.putc '1' stream, Event.fflush stream, Event.sleep 1,
   Event.putc '0' stream, Event.fflush stream]

/-- One pass of the body of `while (1)` in `doForever`. -/
def loopBody (listenSocket : Int) (gpioFile : Option Nat) (buffer : List Byte)
    (c : Connection) : Pass :=
  let clientSocket := c.acceptResult
  if clientSocket < 0 then
    ⟨[Event.accept listenSocket, Event.printf "Error: failed to get client socket\n"],
      buffer, false⟩
  else
    let buffer2 := bufferAfterRead buffer c
    let front : List Event :=
      [Event.accept listenSocket,
       Event.printfInt "Client connected on socket %d\n" clientSocket,
       Event.read clientSocket bufferSize,
       Event.printfStr "Client has said: %s" (cString buffer2) (hasTerminator buffer2)]
    if buffer2.head? = some letterT then
      match gpioFile with
      | none => ⟨front ++ [Event.nullStream], buffer2, true⟩
      | some stream => ⟨front ++ pulse stream ++ [Event.close clientSocket], buffer2, false⟩
    else
      ⟨front ++ [Event.close clientSocket], buffer2, false⟩

/-- The function `doForever`: the events of the first passes of its loop, one
pass per element of the list of answers. -/
def doForever (listenSocket : Int) (gpioFile : Option Nat) :
    List Byte → List Connection → List Event
  | _, [] => []
  | buffer, c :: rest =>
    let p := loopBody listenSocket gpioFile buffer c
    if p.faulted then p.events
    else p.events ++ doForever listenSocket gpioFile p.buffer rest

/-- The function `startServer`: its return value and the calls it issues. -/
def startServer (serverPort : Int) (env : Startup) : Int × List Event :=
  let listenSocket := env.socketResult
  if listenSocket < 0 then
    (-1, [Event.socket])
  else if env.bindResult < 0 then
    (-2, [Event.socket, Event.bind listenSocket (serverPort % 65536)])
  else if env.listenResult = -1 then
    (-3, [Event.socket, Event.bind listenSocket (serverPort % 65536), Event.listen listenSocket 10])
  else
    (listenSocket,
      [Event.socket, Event.bind listenSocket (serverPort % 65536), Event.listen listenSocket 10])

/-- What is seen of a run of `main`. -/
structure Run where
  /-- The calls issued, in order. -/
  trace : List Event
  /-- The exit status when `main` has returned, `none` while the process is
  in the loop of `doForever` (which has no exit). -/
  exit : Option Int
  deriving DecidableEq

/-- The function `main`.  `buffer` is the unspecified initial contents of the
local array of `doForever`. -/
def main (env : Startup) (buffer : List Byte) (conns : List Connection) : Run :=
  let banner := Event.printf "doord: Garage Door Daemon\n"
  let started := startServer port env
  let listenSocket := started.1
  if listenSocket = -1 then
    ⟨banner :: started.2 ++ [Event.printf "Error: couldn't get a listening socket\n"], some 1⟩
  else if listenSocket = -2 then
    ⟨banner :: started.2 ++ [Event.printf "Error: couldn't bind the socket\n"], some 1⟩
  else if listenSocket = -3 then
    ⟨banner :: started.2 ++ [Event.printf "Error: couldn't begin to listen on socket"], some 1⟩
  else
    let gpioFile := env.fopenResult
    ⟨banner :: started.2
        ++ [Event.printfPath "Attempting to open: %s\n" gpioDir, Event.fopen gpioDir "w"]
        ++ doForever listenSocket gpioFile buffer conns,
      none⟩


/-- Whether the read of the pass delivered at least one byte, the first being `'t'`. -/
def sentT (c : Connection) : Bool :=
  match c.readResult with
  | some (b :: _) => b == letterT
  | _ => false

/-- The calls that act on the pin or on the clock: writes and flushes on the
stream of the pin, and waits. -/
def Event.isActuation : Event → Bool
  | Event.putc _ _ => true
  | Event.fflush _ => true
  | Event.sleep _ => true
  | Event.nullStream => true
  | _ => false

/-- The calls that print to standard output. -/
def Event.isPrint : Event → Bool
  | Event.printf _ => true
  | Event.printfInt _ _ => true
  | Event.printfStr _ _ _ => true
  | Event.printfPath _ _ => true
  | _ => false

/-- The calls that belong to the service: opening the pin, and everything
`doForever` does apart from printing. -/
def Event.isService : Event → Bool
  | Event.fopen _ _ => true
  | Event.accept _ => true
  | Event.read _ _ => true
  | Event.putc _ _ => true
  | Event.fflush _ => true
  | Event.sleep _ => true
  | Event.close _ => true
  | Event.nullStream => true
  | _ => false

/-- Whether the call is an `accept`. -/
def Event.isAccept : Event → Bool
  | Event.accept _ => true
  | _ => false

/-- The values written to the pin, in order. -/
def pinValues : List Event → List Char
  | [] => []
  | Event.putc c _ :: rest => c :: pinValues rest
  | _ :: rest => pinValues rest

/-- The values written by `k` pulses one after the other: `'1','0','1','0',…`. -/
def pulseValues : Nat → List Char
  | 0 => []
  | k + 1 => '1' :: '0' :: pulseValues k

/-! ## Helper lemmas -/

theorem bufferSize_pos : 0 < bufferSize := by decide

theorem head_memset (buffer : List Byte) (value : Byte) (count : Nat) (h : 0 < count) :
    (memset buffer value count).head? = some value := by
  cases count with
  | zero => exact absurd h (lt_irrefl 0)
  | succ n => simp [memset, List.replicate_succ]

theorem head_take_cons (b : Byte) (r : List Byte) (count : Nat) (h : 0 < count) :
    (b :: r).take count = b :: r.take (count - 1) := by
  cases count with
  | zero => exact absurd h (lt_irrefl 0)
  | succ n => simp

theorem head_bufferAfterRead (buffer : List Byte) (c : Connection) :
    (bufferAfterRead buffer c).head? = some letterT ↔ sentT c = true := by
  unfold bufferAfterRead readInto sentT
  rcases c.readResult with _ | data
  · simp [delivered, head_memset _ _ _ bufferSize_pos, letterT]
  · cases data with
    | nil => simp [delivered, head_memset _ _ _ bufferSize_pos, letterT]
    | cons b r => simp [delivered, head_take_cons _ _ _ bufferSize_pos]

theorem loopBody_failed (listenSocket : Int) (gpioFile : Option Nat) (buffer : List Byte)
    (c : Connection) (h : c.acceptResult < 0) :
    loopBody listenSocket gpioFile buffer c
      = ⟨[Event.accept listenSocket, Event.printf "Error: failed to get client socket\n"],
          buffer, false⟩ := by
  simp [loopBody, h]

theorem loopBody_accepted (listenSocket : Int) (stream : Nat) (buffer : List Byte)
    (c : Connection) (h : 0 ≤ c.acceptResult) :
    loopBody listenSocket (some stream) buffer c
      = ⟨[Event.accept listenSocket,
           Event.printfInt "Client connected on socket %d\n" c.acceptResult,
           Event.read c.acceptResult bufferSize,
           Event.printfStr "Client has said: %s" (cString (bufferAfterRead buffer c))
             (hasTerminator (bufferAfterRead buffer c))]
          ++ (if sentT c then pulse stream else []) ++ [Event.close c.acceptResult],
          bufferAfterRead buffer c, false⟩ := by
  have hn : ¬ c.acceptResult < 0 := not_lt.mpr h
  by_cases ht : sentT c = true
  · have hb := (head_bufferAfterRead buffer c).mpr ht
    simp [loopBody, hn, hb, ht]
  · have hb : ¬ (bufferAfterRead buffer c).head? = some letterT :=
      fun hb => ht ((head_bufferAfterRead buffer c).mp hb)
    simp [loopBody, hn, hb, ht]

theorem loopBody_stream_faulted (listenSocket : Int) (stream : Nat) (buffer : List Byte)
    (c : Connection) : (loopBody listenSocket (some stream) buffer c).faulted = false := by
  by_cases h : c.acceptResult < 0
  · rw [loopBody_failed _ _ _ _ h]
  · rw [loopBody_accepted _ _ _ _ (not_lt.mp h)]

theorem doForever_cons_stream (listenSocket : Int) (stream : Nat) (buffer : List Byte)
    (c : Connection) (rest : List Connection) :
    doForever listenSocket (some stream) buffer (c :: rest)
      = (loopBody listenSocket (some stream) buffer c).events
        ++ doForever listenSocket (some stream)
            (loopBody listenSocket (some stream) buffer c).buffer rest := by
  simp [doForever, loopBody_stream_faulted]

theorem doForever_cons_failed (listenSocket : Int) (gpioFile : Option Nat) (buffer : List Byte)
    (c : Connection) (rest : List Connection) (h : c.acceptResult < 0) :
    doForever listenSocket gpioFile buffer (c :: rest)
      = Event.accept listenSocket :: Event.printf "Error: failed to get client socket\n"
        :: doForever listenSocket gpioFile buffer rest := by
  simp [doForever, loopBody_failed _ _ _ _ h]

theorem loopBody_events_head (listenSocket : Int) (gpioFile : Option Nat) (buffer : List Byte)
    (c : Connection) :
    ∃ tail, (loopBody listenSocket gpioFile buffer c).events = Event.accept listenSocket :: tail
      ∧ ∀ e ∈ tail, e.isAccept = false := by
  unfold loopBody
  by_cases h : c.acceptResult < 0
  · simp [h, Event.isAccept]
  · by_cases hb : (bufferAfterRead buffer c).head? = some letterT
    · cases gpioFile with
      | none => simp [h, hb, Event.isAccept]
      | some stream => simp [h, hb, pulse, Event.isAccept]
    · simp [h, hb, Event.isAccept]

theorem doForever_head (listenSocket : Int) (gpioFile : Option Nat) (buffer : List Byte)
    (c : Connection) (rest : List Connection) :
    (doForever listenSocket gpioFile buffer (c :: rest)).head? = some (Event.accept listenSocket) := by
  obtain ⟨tail, ht, _⟩ := loopBody_events_head listenSocket gpioFile buffer c
  unfold doForever
  by_cases hf : (loopBody listenSocket gpioFile buffer c).faulted = true
  · simp [hf, ht]
  · simp [hf, ht]

theorem actuation_loopBody (listenSocket : Int) (stream : Nat) (buffer : List Byte)
    (c : Connection) (h : 0 ≤ c.acceptResult) :
    (loopBody listenSocket (some stream) buffer c).events.filter Event.isActuation
      = if sentT c then pulse stream else [] := by
  rw [loopBody_accepted _ _ _ _ h]
  by_cases ht : sentT c = true
  · simp [ht, pulse, Event.isActuation]
  · simp [ht, Event.isActuation]

/-- C1. Whatever the earlier connections of the run sent, an accepted connection
adds to the pin and clock operations of the run exactly one pulse when its read
delivered at least one byte and the first byte is `'t'`, and nothing otherwise
(another first byte, a read of zero bytes, a failed read). -/
theorem doForever_pulse_iff_first_byte_t (listenSocket : Int) (stream : Nat)
    (buffer : List Byte) (earlier : List Connection) (c : Connection)
    (h : 0 ≤ c.acceptResult) :
    (doForever listenSocket (some stream) buffer (earlier ++ [c])).filter Event.isActuation
      = (doForever listenSocket (some stream) buffer earlier).filter Event.isActuation
        ++ (if sentT c then
              [Event.putc '1' stream, Event.fflush stream, Event.sleep 1,
               Event.putc '0' stream, Event.fflush stream]
            else []) := by
  induction earlier generalizing buffer with
  | nil =>
    have ha := actuation_loopBody listenSocket stream buffer c h
    simp only [List.nil_append, doForever_cons_stream, List.filter_append, ha]
    simp [doForever, pulse]
  | cons e earlier ih =>
    simp only [List.cons_append, doForever_cons_stream, List.filter_append, ih,
      List.append_assoc]

/-- C1, at a run of two connections: the first sends "t", the second is closed
by the client without sending (a read of zero bytes). -/
theorem doForever_pulse_iff_first_byte_t_witness :
    (0 : Int) ≤ (Connection.mk 5 (some []) 0 0 0 0).acceptResult
    ∧ (doForever 3 (some 9) [] ([Connection.mk 4 (some [116]) 49 0 48 0]
          ++ [Connection.mk 5 (some []) 0 0 0 0])).filter Event.isActuation
      = (doForever 3 (some 9) [] [Connection.mk 4 (some [116]) 49 0 48 0]).filter
          Event.isActuation
        ++ (if sentT (Connection.mk 5 (some []) 0 0 0 0) then
              [Event.putc '1' 9, Event.fflush 9, Event.sleep 1,
               Event.putc '0' 9, Event.fflush 9]
            else []) :=
  ⟨by decide, doForever_pulse_iff_first_byte_t 3 9 [] _ _ (by decide)⟩

/-- C2. In every pass of the loop that issues any operation on the pin stream or
the clock, these operations are exactly, in this order: `putc('1')`, `fflush`,
`sleep(1)` (one second, 1000 ms), `putc('0')`, `fflush`. -/
theorem loopBody_pulse_sequence (listenSocket : Int) (stream : Nat) (buffer : List Byte)
    (c : Connection)
    (h : (loopBody listenSocket (some stream) buffer c).events.any Event.isActuation = true) :
    (loopBody listenSocket (some stream) buffer c).events.filter Event.isActuation
      = [Event.putc '1' stream, Event.fflush stream, Event.sleep 1,
         Event.putc '0' stream, Event.fflush stream] := by
  by_cases ha : c.acceptResult < 0
  · rw [loopBody_failed _ _ _ _ ha] at h
    simp [Event.isActuation] at h
  · have h0 : 0 ≤ c.acceptResult := not_lt.mp ha
    by_cases ht : sentT c = true
    · rw [actuation_loopBody _ _ _ _ h0]
      simp [ht, pulse]
    · rw [loopBody_accepted _ _ _ _ h0] at h
      simp [ht, Event.isActuation] at h

/-- C2, at a connection that sends "toggle\n". -/
theorem loopBody_pulse_sequence_witness :
    (loopBody 3 (some 9) []
        (Connection.mk 4 (some [116, 111, 103, 103, 108, 101, 10]) 49 0 48 0)).events.any
      Event.isActuation = true
    ∧ (loopBody 3 (some 9) []
        (Connection.mk 4 (some [116, 111, 103, 103, 108, 101, 10]) 49 0 48 0)).events.filter
      Event.isActuation
      = [Event.putc '1' 9, Event.fflush 9, Event.sleep 1, Event.putc '0' 9, Event.fflush 9] :=
  ⟨by decide, loopBody_pulse_sequence 3 9 [] _ (by decide)⟩

/-- C3. For an accepted connection the calls of the pass are exactly: `accept`,
a log line, one `read` of at most 1024 bytes on the client socket, a log line,
the pulse if the first byte is `'t'`, and one `close` of the client socket as
the last call; the next pass, if any, starts with `accept` on the listening
socket. No call sends anything to the client, and no return value of a pin
write or flush has any influence. -/
theorem doForever_accepted_connection (listenSocket : Int) (stream : Nat) (buffer : List Byte)
    (c : Connection) (rest : List Connection) (h : 0 ≤ c.acceptResult) :
    doForever listenSocket (some stream) buffer (c :: rest)
      = [Event.accept listenSocket,
         Event.printfInt "Client connected on socket %d\n" c.acceptResult,
         Event.read c.acceptResult 1024,
         Event.printfStr "Client has said: %s" (cString (bufferAfterRead buffer c))
           (hasTerminator (bufferAfterRead buffer c))]
        ++ (if sentT c then pulse stream else [])
        ++ Event.close c.acceptResult
          :: doForever listenSocket (some stream) (bufferAfterRead buffer c) rest
    ∧ ∀ next later,
        (doForever listenSocket (some stream) (bufferAfterRead buffer c) (next :: later)).head?
          = some (Event.accept listenSocket) := by
  refine ⟨?_, fun next later => doForever_head _ _ _ _ _⟩
  rw [doForever_cons_stream, loopBody_accepted _ _ _ _ h]
  simp [bufferSize]

/-- C3, at a connection that sends "status", followed by another connection. -/
theorem doForever_accepted_connection_witness :
    (0 : Int) ≤ (Connection.mk 4 (some [115, 116, 97, 116, 117, 115]) 0 0 0 0).acceptResult
    ∧ doForever 3 (some 9) []
        [Connection.mk 4 (some [115, 116, 97, 116, 117, 115]) 0 0 0 0,
         Connection.mk 5 (some [116]) 49 0 48 0]
      = [Event.accept 3, Event.printfInt "Client connected on socket %d\n" 4,
         Event.read 4 1024,
         Event.printfStr "Client has said: %s" [115, 116, 97, 116, 117, 115] true,
         Event.close 4,
         Event.accept 3, Event.printfInt "Client connected on socket %d\n" 5,
         Event.read 5 1024, Event.printfStr "Client has said: %s" [116] true,
         Event.putc '1' 9, Event.fflush 9, Event.sleep 1, Event.putc '0' 9, Event.fflush 9,
         Event.close 5] :=
  ⟨by decide,
   ((doForever_accepted_connection 3 9 []
      (Connection.mk 4 (some [115, 116, 97, 116, 117, 115]) 0 0 0 0)
      [Connection.mk 5 (some [116]) 49 0 48 0] (by decide)).1).trans (by decide)⟩

/-- C7. When `accept` returns a negative value the pass issues only the
`accept` itself and the log line "Error: failed to get client socket": no read,
no pin write or flush, no wait, no close. The buffer is left as it was, and the
run goes on: the next pass, if any, starts with `accept` on the same listening
socket. -/
theorem doForever_accept_failure (listenSocket : Int) (gpioFile : Option Nat)
    (buffer : List Byte) (c : Connection) (rest : List Connection)
    (h : c.acceptResult < 0) :
    doForever listenSocket gpioFile buffer (c :: rest)
      = Event.accept listenSocket :: Event.printf "Error: failed to get client socket\n"
        :: doForever listenSocket gpioFile buffer rest
    ∧ ∀ next later,
        (doForever listenSocket gpioFile buffer (next :: later)).head?
          = some (Event.accept listenSocket) :=
  ⟨doForever_cons_failed _ _ _ _ _ h, fun _ _ => doForever_head _ _ _ _ _⟩

/-- C7, at a failed accept followed by a connection that sends "t". -/
theorem doForever_accept_failure_witness :
    (Connection.mk (-1) none 0 0 0 0).acceptResult < 0
    ∧ doForever 3 (some 9) [] [Connection.mk (-1) none 0 0 0 0,
        Connection.mk 4 (some [116]) 49 0 48 0]
      = [Event.accept 3, Event.printf "Error: failed to get client socket\n",
         Event.accept 3, Event.printfInt "Client connected on socket %d\n" 4,
         Event.read 4 1024, Event.printfStr "Client has said: %s" [116] true,
         Event.putc '1' 9, Event.fflush 9, Event.sleep 1, Event.putc '0' 9, Event.fflush 9,
         Event.close 4] :=
  ⟨by decide,
   ((doForever_accept_failure 3 (some 9) [] (Connection.mk (-1) none 0 0 0 0)
      [Connection.mk 4 (some [116]) 49 0 48 0] (by decide)).1).trans (by decide)⟩

theorem pinValues_append (xs ys : List Event) :
    pinValues (xs ++ ys) = pinValues xs ++ pinValues ys := by
  induction xs with
  | nil => rfl
  | cons e xs ih => cases e <;> simp [pinValues, ih]

theorem pinValues_loopBody (listenSocket : Int) (gpioFile : Option Nat) (buffer : List Byte)
    (c : Connection) :
    pinValues (loopBody listenSocket gpioFile buffer c).events = []
    ∨ pinValues (loopBody listenSocket gpioFile buffer c).events = ['1', '0'] := by
  unfold loopBody
  by_cases h : c.acceptResult < 0
  · simp [h, pinValues]
  · by_cases hb : (bufferAfterRead buffer c).head? = some letterT
    · cases gpioFile with
      | none => simp [h, hb, pinValues]
      | some stream => simp [h, hb, pulse, pinValues]
    · simp [h, hb, pinValues]

/-- Splitting a list at an `accept` that cannot lie in its first part. -/
theorem split_at_accept (front : List Event) (hfront : ∀ e ∈ front, e.isAccept = false) :
    ∀ (tail before after : List Event) (fd : Int),
      front ++ tail = before ++ Event.accept fd :: after →
      ∃ mid, before = front ++ mid ∧ tail = mid ++ Event.accept fd :: after := by
  induction front with
  | nil => intro tail before after fd h; exact ⟨before, rfl, h⟩
  | cons e front ih =>
    intro tail before after fd h
    cases before with
    | nil =>
      simp only [List.cons_append, List.nil_append, List.cons.injEq] at h
      have := hfront e (List.mem_cons_self _ _)
      rw [h.1] at this
      simp [Event.isAccept] at this
    | cons b before =>
      simp only [List.cons_append, List.cons.injEq] at h
      obtain ⟨mid, hm, ht⟩ :=
        ih (fun x hx => hfront x (List.mem_cons_of_mem _ hx)) tail before after fd h.2
      exact ⟨mid, by rw [h.1, hm]; rfl, ht⟩

theorem doForever_cons_faulted (listenSocket : Int) (gpioFile : Option Nat)
    (buffer : List Byte) (c : Connection) (rest : List Connection)
    (hf : (loopBody listenSocket gpioFile buffer c).faulted = true) :
    doForever listenSocket gpioFile buffer (c :: rest)
      = (loopBody listenSocket gpioFile buffer c).events := by
  simp [doForever, hf]

theorem doForever_cons_running (listenSocket : Int) (gpioFile : Option Nat)
    (buffer : List Byte) (c : Connection) (rest : List Connection)
    (hf : (loopBody listenSocket gpioFile buffer c).faulted = false) :
    doForever listenSocket gpioFile buffer (c :: rest)
      = (loopBody listenSocket gpioFile buffer c).events
        ++ doForever listenSocket gpioFile (loopBody listenSocket gpioFile buffer c).buffer
            rest := by
  simp [doForever, hf]

theorem pinValues_doForever (listenSocket : Int) (gpioFile : Option Nat)
    (conns : List Connection) :
    ∀ buffer, ∃ k, pinValues (doForever listenSocket gpioFile buffer conns) = pulseValues k := by
  induction conns with
  | nil => intro buffer; exact ⟨0, rfl⟩
  | cons c rest ih =>
    intro buffer
    cases hf : (loopBody listenSocket gpioFile buffer c).faulted with
    | true =>
      rw [doForever_cons_faulted _ _ _ _ _ hf]
      rcases pinValues_loopBody listenSocket gpioFile buffer c with h | h
      · exact ⟨0, h⟩
      · exact ⟨1, h⟩
    | false =>
      obtain ⟨k, hk⟩ := ih (loopBody listenSocket gpioFile buffer c).buffer
      rw [doForever_cons_running _ _ _ _ _ hf, pinValues_append, hk]
      rcases pinValues_loopBody listenSocket gpioFile buffer c with h | h
      · exact ⟨k, by rw [h]; rfl⟩
      · exact ⟨k + 1, by rw [h]; rfl⟩

theorem pinValues_before_accept (listenSocket : Int) (gpioFile : Option Nat)
    (conns : List Connection) :
    ∀ (buffer : List Byte) (before after : List Event) (fd : Int),
      doForever listenSocket gpioFile buffer conns = before ++ Event.accept fd :: after →
      ∃ k, pinValues before = pulseValues k := by
  induction conns with
  | nil =>
    intro buffer before after fd h
    simp [doForever] at h
  | cons c rest ih =>
    intro buffer before after fd h
    obtain ⟨tail, ht, hacc⟩ := loopBody_events_head listenSocket gpioFile buffer c
    cases before with
    | nil => exact ⟨0, rfl⟩
    | cons b before =>
      have hp : pinValues (Event.accept listenSocket :: tail) = []
          ∨ pinValues (Event.accept listenSocket :: tail) = ['1', '0'] := by
        rw [← ht]; exact pinValues_loopBody listenSocket gpioFile buffer c
      have hp2 : pinValues tail = [] ∨ pinValues tail = ['1', '0'] := by
        simpa [pinValues] using hp
      cases hf : (loopBody listenSocket gpioFile buffer c).faulted with
      | true =>
        rw [doForever_cons_faulted _ _ _ _ _ hf, ht] at h
        simp only [List.cons_append, List.cons.injEq] at h
        have h2 : tail ++ [] = before ++ Event.accept fd :: after := by simpa using h.2
        obtain ⟨mid, _, hm⟩ := split_at_accept tail hacc [] before after fd h2
        simp at hm
      | false =>
        rw [doForever_cons_running _ _ _ _ _ hf, ht] at h
        simp only [List.cons_append, List.cons.injEq] at h
        obtain ⟨mid, hb, hm⟩ := split_at_accept tail hacc _ before after fd h.2
        obtain ⟨k, hk⟩ := ih _ mid after fd hm
        have hbv : pinValues (b :: before) = pinValues tail ++ pinValues mid := by
          rw [← h.1, hb]
          simp [pinValues, pinValues_append]
        rcases hp2 with h0 | h1
        · exact ⟨k, by rw [hbv, h0, hk]; rfl⟩
        · exact ⟨k + 1, by rw [hbv, h1, hk]; rfl⟩

/-- C8. In every run of the accept loop the values written to the pin are
`'1','0','1','0',…`: a whole number of pulses. The same holds for the part of
the run before any `accept`: whenever the server calls `accept`, every `'1'`
written so far has been followed by its `'0'`, so the last value written (if
any) is `'0'` and no pulse is in progress. -/
theorem doForever_pin_alternates (listenSocket : Int) (gpioFile : Option Nat)
    (buffer : List Byte) (conns : List Connection) :
    (∃ k, pinValues (doForever listenSocket gpioFile buffer conns) = pulseValues k)
    ∧ ∀ (before after : List Event) (fd : Int),
        doForever listenSocket gpioFile buffer conns = before ++ Event.accept fd :: after →
        (∃ k, pinValues before = pulseValues k)
          ∧ ((pinValues before).getLast? = none ∨ (pinValues before).getLast? = some '0') := by
  refine ⟨pinValues_doForever _ _ _ _, fun before after fd h => ?_⟩
  obtain ⟨k, hk⟩ := pinValues_before_accept _ _ _ _ _ _ _ h
  refine ⟨⟨k, hk⟩, ?_⟩
  rw [hk]
  clear hk h
  induction k with
  | zero => left; rfl
  | succ k ih =>
    right
    rcases ih with h0 | h1
    · cases k with
      | zero => rfl
      | succ k => simp [pulseValues] at h0
    · cases k with
      | zero => simp [pulseValues] at h1
      | succ k =>
        have : pulseValues (k + 1 + 1) = '1' :: '0' :: pulseValues (k + 1) := rfl
        rw [this]
        simpa [pulseValues, List.getLast?_cons_cons] using h1

theorem startServer_result (serverPort : Int) (env : Startup) :
    (startServer serverPort env).1
      = if env.socketResult < 0 then -1
        else if env.bindResult < 0 then -2
        else if env.listenResult = -1 then -3
        else env.socketResult := by
  simp only [startServer]
  split_ifs <;> rfl

theorem startServer_events_not_service (serverPort : Int) (env : Startup) :
    ∀ e ∈ (startServer serverPort env).2, e.isService = false := by
  simp only [startServer]
  split_ifs <;> simp [Event.isService]

/-- The run of `main` when `startServer` reports an error: the banner, the
calls of `startServer`, one error line, exit status 1. -/
theorem main_of_error (env : Startup) (buffer : List Byte) (conns : List Connection)
    (h : (startServer port env).1 = -1 ∨ (startServer port env).1 = -2
      ∨ (startServer port env).1 = -3) :
    ∃ text, (text = "Error: couldn't get a listening socket\n"
        ∨ text = "Error: couldn't bind the socket\n"
        ∨ text = "Error: couldn't begin to listen on socket")
      ∧ main env buffer conns
        = ⟨(Event.printf "doord: Garage Door Daemon\n" :: (startServer port env).2)
            ++ [Event.printf text], some 1⟩ := by
  rcases h with h | h | h
  · exact ⟨_, Or.inl rfl, by simp [main, h]⟩
  · exact ⟨_, Or.inr (Or.inl rfl), by simp [main, h]⟩
  · exact ⟨_, Or.inr (Or.inr rfl), by simp [main, h]⟩

theorem startServer_error_of_failure (env : Startup)
    (h : env.socketResult = -1 ∨ env.bindResult = -1 ∨ env.listenResult = -1) :
    (startServer port env).1 = -1 ∨ (startServer port env).1 = -2
      ∨ (startServer port env).1 = -3 := by
  rw [startServer_result]
  split_ifs <;> omega

/-- C5. If `socket`, `bind` or `listen` fails (returns -1), `main` returns the
exit status 1, the last thing it does is print one of its three error lines,
and its trace holds no `fopen`, no `accept` and no call on the pin or a client.
Conversely a run of `main` holds an `accept` only when `startServer` returned
something other than -1, -2 and -3. -/
theorem main_startup_failure (env : Startup) (buffer : List Byte) (conns : List Connection) :
    ((env.socketResult = -1 ∨ env.bindResult = -1 ∨ env.listenResult = -1) →
      (main env buffer conns).exit = some 1
      ∧ ((main env buffer conns).trace.getLast?
            = some (Event.printf "Error: couldn't get a listening socket\n")
          ∨ (main env buffer conns).trace.getLast?
            = some (Event.printf "Error: couldn't bind the socket\n")
          ∨ (main env buffer conns).trace.getLast?
            = some (Event.printf "Error: couldn't begin to listen on socket"))
      ∧ ∀ e ∈ (main env buffer conns).trace, e.isService = false)
    ∧ (∀ fd, Event.accept fd ∈ (main env buffer conns).trace →
        (startServer port env).1 ≠ -1 ∧ (startServer port env).1 ≠ -2
          ∧ (startServer port env).1 ≠ -3) := by
  have hev := startServer_events_not_service port env
  constructor
  · intro hfail
    obtain ⟨text, htext, hmain⟩ :=
      main_of_error env buffer conns (startServer_error_of_failure env hfail)
    rw [hmain]
    refine ⟨rfl, ?_, ?_⟩
    · simp only [List.getLast?_concat, Option.some.injEq, Event.printf.injEq]
      exact htext
    · intro e he
      simp only [List.mem_append, List.mem_cons, List.mem_singleton, List.not_mem_nil,
        or_false] at he
      rcases he with (he | he) | he
      · rw [he]; rfl
      · exact hev e he
      · rw [he]; rfl
  · intro fd hmem
    by_contra hne
    have herr : (startServer port env).1 = -1 ∨ (startServer port env).1 = -2
        ∨ (startServer port env).1 = -3 := by
      by_contra hno
      exact hne ⟨fun h => hno (Or.inl h), fun h => hno (Or.inr (Or.inl h)),
        fun h => hno (Or.inr (Or.inr h))⟩
    obtain ⟨text, _, hmain⟩ := main_of_error env buffer conns herr
    rw [hmain] at hmem
    simp only [List.mem_append, List.mem_cons, List.mem_singleton, List.not_mem_nil,
      or_false] at hmem
    rcases hmem with (he | he) | he
    · cases he
    · have := hev _ he
      simp [Event.isService] at this
    · cases he

/-- C5, at a run where `bind` fails (port in use) and at a run that starts up
and serves one connection. -/
theorem main_startup_failure_witness :
    ((Startup.mk 3 (-1) 0 (some 9)).bindResult = -1
      ∧ main (Startup.mk 3 (-1) 0 (some 9)) [] [Connection.mk 4 (some [116]) 49 0 48 0]
        = ⟨[Event.printf "doord: Garage Door Daemon\n", Event.socket, Event.bind 3 8765,
            Event.printf "Error: couldn't bind the socket\n"], some 1⟩
      ∧ (main (Startup.mk 3 (-1) 0 (some 9)) []
          [Connection.mk 4 (some [116]) 49 0 48 0]).exit = some 1)
    ∧ (Event.accept 3 ∈ (main (Startup.mk 3 0 0 (some 9)) []
          [Connection.mk 4 (some []) 0 0 0 0]).trace
      ∧ (startServer port (Startup.mk 3 0 0 (some 9))).1 ≠ -1) :=
  ⟨⟨by decide, by decide,
     ((main_startup_failure (Startup.mk 3 (-1) 0 (some 9)) []
        [Connection.mk 4 (some [116]) 49 0 48 0]).1 (Or.inr (Or.inl (by decide)))).1⟩,
   ⟨by decide,
    ((main_startup_failure (Startup.mk 3 0 0 (some 9)) []
        [Connection.mk 4 (some []) 0 0 0 0]).2 3 (by decide)).1⟩⟩

/-- C9, refuted. A connection sends "t" and every write and flush on the pin
fails (`EOF`): the pass issues the calls of an ordinary pulse and then `close`;
from the first pin call on nothing is printed, and the whole pass is the one of
the same connection with writes and flushes that succeed. -/
theorem loopBody_pin_failure_silent :
    (Connection.mk 4 (some [116]) (-1) (-1) (-1) (-1)).putcOn = -1
    ∧ (loopBody 3 (some 9) [] (Connection.mk 4 (some [116]) (-1) (-1) (-1) (-1))).events
      = [Event.accept 3, Event.printfInt "Client connected on socket %d\n" 4,
         Event.read 4 1024, Event.printfStr "Client has said: %s" [116] true,
         Event.putc '1' 9, Event.fflush 9, Event.sleep 1, Event.putc '0' 9, Event.fflush 9,
         Event.close 4]
    ∧ (((loopBody 3 (some 9) []
          (Connection.mk 4 (some [116]) (-1) (-1) (-1) (-1))).events.dropWhile
        (fun e => !e.isActuation)).any Event.isPrint) = false
    ∧ loopBody 3 (some 9) [] (Connection.mk 4 (some [116]) (-1) (-1) (-1) (-1))
      = loopBody 3 (some 9) [] (Connection.mk 4 (some [116]) 49 0 48 0) :=
  ⟨by decide, by decide, by decide, rfl⟩

/-- C9, amended. The return values of `putc` and `fflush` are ignored, so a
failed pin write or flush is neither detected nor logged. Whatever the four pin
calls return, the run of an accepted connection is exactly: `accept`, the two
routine lines "Client connected on socket …" and "Client has said: …" around
the `read`, then (when the first byte is `'t'`) the whole pulse `putc('1')`,
`fflush`, `sleep(1)`, `putc('0')`, `fflush` with nothing printed during or
after it, then `close` of the client socket, then the remaining passes, each
starting with `accept` on the listening socket. The pass is the very one of
the same connection with other pin results, and the two routine lines are all
it prints. -/
theorem doForever_pin_failure_not_logged (listenSocket : Int) (stream : Nat)
    (buffer : List Byte) (c : Connection) (putcOn fflushOn putcOff fflushOff : Int)
    (rest : List Connection) (h : 0 ≤ c.acceptResult) :
    doForever listenSocket (some stream) buffer
        (Connection.mk c.acceptResult c.readResult putcOn fflushOn putcOff fflushOff :: rest)
      = [Event.accept listenSocket,
         Event.printfInt "Client connected on socket %d\n" c.acceptResult,
         Event.read c.acceptResult 1024,
         Event.printfStr "Client has said: %s" (cString (bufferAfterRead buffer c))
           (hasTerminator (bufferAfterRead buffer c))]
        ++ (if sentT c then
              [Event.putc '1' stream, Event.fflush stream, Event.sleep 1,
               Event.putc '0' stream, Event.fflush stream]
            else [])
        ++ Event.close c.acceptResult
          :: doForever listenSocket (some stream) (bufferAfterRead buffer c) rest
    ∧ (∀ next later,
        (doForever listenSocket (some stream) (bufferAfterRead buffer c) (next :: later)).head?
          = some (Event.accept listenSocket))
    ∧ loopBody listenSocket (some stream) buffer
        (Connection.mk c.acceptResult c.readResult putcOn fflushOn putcOff fflushOff)
      = loopBody listenSocket (some stream) buffer c
    ∧ (loopBody listenSocket (some stream) buffer c).events.filter Event.isPrint
      = [Event.printfInt "Client connected on socket %d\n" c.acceptResult,
         Event.printfStr "Client has said: %s" (cString (bufferAfterRead buffer c))
           (hasTerminator (bufferAfterRead buffer c))] := by
  have hsame : loopBody listenSocket (some stream) buffer
      (Connection.mk c.acceptResult c.readResult putcOn fflushOn putcOff fflushOff)
      = loopBody listenSocket (some stream) buffer c := rfl
  refine ⟨?_, fun next later => doForever_head _ _ _ _ _, hsame, ?_⟩
  · rw [doForever_cons_stream, hsame, loopBody_accepted _ _ _ _ h]
    by_cases ht : sentT c = true
    · simp [ht, pulse, bufferSize]
    · simp [ht, bufferSize]
  · rw [loopBody_accepted _ _ _ _ h]
    by_cases ht : sentT c = true
    · simp [ht, pulse, Event.isPrint]
    · simp [ht, Event.isPrint]

/-- C9 amended, at a connection that sends "t" while all four pin calls fail,
followed by a connection that sends nothing. -/
theorem doForever_pin_failure_not_logged_witness :
    (0 : Int) ≤ (Connection.mk 4 (some [116]) 49 0 48 0).acceptResult
    ∧ doForever 3 (some 9) []
        [Connection.mk 4 (some [116]) (-1) (-1) (-1) (-1), Connection.mk 5 (some []) 0 0 0 0]
      = [Event.accept 3, Event.printfInt "Client connected on socket %d\n" 4,
         Event.read 4 1024, Event.printfStr "Client has said: %s" [116] true,
         Event.putc '1' 9, Event.fflush 9, Event.sleep 1, Event.putc '0' 9, Event.fflush 9,
         Event.close 4,
         Event.accept 3, Event.printfInt "Client connected on socket %d\n" 5,
         Event.read 5 1024, Event.printfStr "Client has said: %s" [] true,
         Event.close 5]
    ∧ loopBody 3 (some 9) [] (Connection.mk 4 (some [116]) (-1) (-1) (-1) (-1))
      = loopBody 3 (some 9) [] (Connection.mk 4 (some [116]) 49 0 48 0)
    ∧ (loopBody 3 (some 9) [] (Connection.mk 4 (some [116]) 49 0 48 0)).events.filter
        Event.isPrint
      = [Event.printfInt "Client connected on socket %d\n" 4,
         Event.printfStr "Client has said: %s" [116] true] :=
  ⟨by decide,
   ((doForever_pin_failure_not_logged 3 9 [] (Connection.mk 4 (some [116]) 49 0 48 0)
      (-1) (-1) (-1) (-1) [Connection.mk 5 (some []) 0 0 0 0] (by decide)).1).trans
      (by decide),
   (doForever_pin_failure_not_logged 3 9 [] (Connection.mk 4 (some [116]) 49 0 48 0)
      (-1) (-1) (-1) (-1) [Connection.mk 5 (some []) 0 0 0 0] (by decide)).2.2.1,
   ((doForever_pin_failure_not_logged 3 9 [] (Connection.mk 4 (some [116]) 49 0 48 0)
      (-1) (-1) (-1) (-1) [Connection.mk 5 (some []) 0 0 0 0] (by decide)).2.2.2).trans
      (by decide)⟩

/-- C4, on the code. `fopen` fails while the socket is set up: `main` prints no
error and does not return; it enters `doForever` with the null stream, accepts
the connection, and on its "t" calls `putc` on the null stream. -/
theorem main_failed_fopen_enters_loop :
    main (Startup.mk 3 0 0 none) [] [Connection.mk 4 (some [116]) 49 0 48 0]
      = ⟨[Event.printf "doord: Garage Door Daemon\n", Event.socket, Event.bind 3 8765,
          Event.listen 3 10, Event.printfPath "Attempting to open: %s\n" gpioDir,
          Event.fopen gpioDir "w",
          Event.accept 3, Event.printfInt "Client connected on socket %d\n" 4,
          Event.read 4 1024, Event.printfStr "Client has said: %s" [116] true,
          Event.nullStream], none⟩ := by
  decide

/-- C6, on the code. `socket` returns the descriptor 0 (standard input was
closed when the daemon was started), `bind` and `listen` succeed: `startServer`
returns 0, which is not in the documented range `>0`. -/
theorem startServer_returns_zero :
    (startServer port (Startup.mk 0 0 0 (some 9))).1 = 0
    ∧ ¬ (0 < (startServer port (Startup.mk 0 0 0 (some 9))).1) := by
  decide

/-- The part of C6 that holds. With answers as the system gives them (`socket`
returns -1 or a descriptor, `bind` and `listen` return -1 or 0) the three error
codes mean what the comment says, and any other result is the descriptor,
which is at least 0. -/
theorem startServer_codes (serverPort : Int) (env : Startup)
    (hs : -1 ≤ env.socketResult) (hb : env.bindResult = -1 ∨ env.bindResult = 0)
    (hl : env.listenResult = -1 ∨ env.listenResult = 0) :
    ((startServer serverPort env).1 = -1 ↔ env.socketResult = -1)
    ∧ ((startServer serverPort env).1 = -2 ↔ 0 ≤ env.socketResult ∧ env.bindResult = -1)
    ∧ ((startServer serverPort env).1 = -3
        ↔ 0 ≤ env.socketResult ∧ env.bindResult = 0 ∧ env.listenResult = -1)
    ∧ ((startServer serverPort env).1 ≠ -1 → (startServer serverPort env).1 ≠ -2 →
        (startServer serverPort env).1 ≠ -3 →
        (startServer serverPort env).1 = env.socketResult
          ∧ 0 ≤ (startServer serverPort env).1) := by
  rw [startServer_result]
  split_ifs <;> omega

theorem bufferAfterRead_full (buffer data : List Byte) (c : Connection)
    (hbuf : buffer.length = bufferSize) (hdata : data.length = bufferSize)
    (hc : c.readResult = some data) : bufferAfterRead buffer c = data := by
  unfold bufferAfterRead readInto memset
  rw [hc]
  simp only [delivered]
  rw [List.take_of_length_le (le_of_eq hdata), hdata]
  rw [List.drop_of_length_le (by simp [hbuf])]
  simp

theorem hasTerminator_replicate (n : Nat) (b : Byte) (hb : b ≠ 0) :
    hasTerminator (List.replicate n b) = false := by
  unfold hasTerminator
  rw [List.any_eq_false]
  intro x hx
  rw [List.eq_of_mem_replicate hx]
  simpa using hb

theorem cString_replicate (n : Nat) (b : Byte) (hb : b ≠ 0) :
    cString (List.replicate n b) = List.replicate n b := by
  unfold cString
  rw [List.takeWhile_eq_self_iff]
  intro x hx
  rw [List.eq_of_mem_replicate hx]
  simpa using hb

/-- C10, on the code. The client sends 1024 bytes `'a'` and one `read` delivers
them all: the buffer holds no zero byte afterwards, so `printf("%s", buffer)`
finds no terminator inside the array. -/
theorem loopBody_full_message_unterminated :
    hasTerminator (bufferAfterRead (List.replicate 1024 0)
        (Connection.mk 4 (some (List.replicate 1024 97)) 0 0 0 0)) = false
    ∧ (loopBody 3 (some 9) (List.replicate 1024 0)
        (Connection.mk 4 (some (List.replicate 1024 97)) 0 0 0 0)).events
      = [Event.accept 3, Event.printfInt "Client connected on socket %d\n" 4,
         Event.read 4 1024,
         Event.printfStr "Client has said: %s" (List.replicate 1024 97) false,
         Event.close 4] := by
  have hb : bufferAfterRead (List.replicate 1024 0)
      (Connection.mk 4 (some (List.replicate 1024 97)) 0 0 0 0) = List.replicate 1024 97 :=
    bufferAfterRead_full _ _ _ (List.length_replicate _ _) (List.length_replicate _ _) rfl
  have ht : hasTerminator (List.replicate 1024 (97 : Byte)) = false :=
    hasTerminator_replicate 1024 97 (by decide)
  have hs : cString (List.replicate 1024 (97 : Byte)) = List.replicate 1024 97 :=
    cString_replicate 1024 97 (by decide)
  have hst : sentT (Connection.mk 4 (some (List.replicate 1024 97)) 0 0 0 0) = false := by
    decide
  refine ⟨by rw [hb, ht], ?_⟩
  rw [loopBody_accepted _ _ _ _ (by decide), hb, ht, hs, hst]
  rfl

/-- The part of C10 that holds. When the read delivers fewer than 1024 bytes
(or fails), the buffer holds a zero byte afterwards. -/
theorem hasTerminator_of_short_read (buffer : List Byte) (c : Connection)
    (h : (delivered bufferSize c.readResult).length < bufferSize) :
    hasTerminator (bufferAfterRead buffer c) = true := by
  unfold bufferAfterRead readInto memset hasTerminator
  rw [List.any_eq_true]
  refine ⟨0, ?_, by decide⟩
  rw [List.mem_append]
  right
  rw [List.drop_append_of_le_length (by simpa using le_of_lt h)]
  rw [List.mem_append]
  left
  rw [List.drop_replicate]
  exact List.mem_replicate.mpr ⟨by omega, rfl⟩

end DoorD
